import Mathlib

/-!
Verification development for the TheSimple/Ecofactor thermostat client
(custom_components/simple/thesimple.py and custom_components/nvenergy/thesimple.py).

The Python client is shallowly embedded: JSON values become an inductive type,
the mutable client and thermostat objects become explicit state records, and
each method becomes a pure function from the prior state and the HTTP response
supplied by the network to the new state, the list of network requests actually
issued, and an optional raised error.  Sequential field assignments that Python
performs one line at a time are embedded in the same order, so that an
exception raised midway leaves exactly the fields assigned so far updated,
as in the source.
-/

namespace TheSimple

/-! ## JSON values (the result of response.json()) -/

/-- A JSON value as decoded by the Python json module.  Integers and other
numbers are kept apart because the source writes integer setpoints. -/
inductive Json where
  | null
  | bool (b : Bool)
  | int (i : Int)
  | num (q : Rat)
  | str (s : String)
  | arr (elems : List Json)
  | obj (fields : List (String × Json))
deriving Repr

/-- Association-list lookup used to embed the Python dict subscript. -/
def assocFind : List (String × Json) → String → Option Json
  | [], _ => none
  | (k, v) :: rest, key => if k = key then some v else assocFind rest key

/-- Embeds the Python subscript r_json[key]: a missing key (or a non-dict
receiver) yields none, which the callers turn into a raised error. -/
def Json.get? (j : Json) (key : String) : Option Json :=
  match j with
  | .obj fields => assocFind fields key
  | _ => none

/-- Embeds the Python float(...) builtin on a decoded JSON value: numbers
convert, everything else raises (numeric strings are abstracted away, no
call site of the source feeds a string to float). -/
def Json.toFloat? : Json → Option Rat
  | .int i => some (i : Rat)
  | .num q => some q
  | .bool b => some (if b then 1 else 0)
  | _ => none

/-- Embeds the Python int(...) builtin on a float: truncation toward zero. -/
def pyInt (q : Rat) : Int :=
  if 0 ≤ q then q.floor else q.ceil

/-- Embeds the Python round(x, 1): rounding to one decimal place (the exact
tie-breaking of binary floats is abstracted to half-up on rationals; no
claim depends on ties). -/
def round1 (q : Rat) : Rat :=
  ((q * 10 + 1 / 2).floor : Rat) / 10

/-! ## SHA-1 (hashlib.sha1, executable model) and UTF-8 encoding -/

/-- Left rotation of a 32-bit word represented as a Nat below 2 to the 32. -/
def rotl32 (x k : Nat) : Nat :=
  ((x <<< k) % 4294967296) ||| (x >>> (32 - k))

/-- UTF-8 encoding of one character, as the Python str.encode builtin. -/
def utf8Char (c : Char) : List Nat :=
  let n := c.toNat
  if n < 128 then [n]
  else if n < 2048 then [192 + n / 64, 128 + n % 64]
  else if n < 65536 then [224 + n / 4096, 128 + (n / 64) % 64, 128 + n % 64]
  else [240 + n / 262144, 128 + (n / 4096) % 64, 128 + (n / 64) % 64, 128 + n % 64]

/-- UTF-8 encoding of a string as a byte list. -/
def utf8Encode (s : String) : List Nat :=
  (s.data.map utf8Char).flatten

/-- SHA-1 message padding: append the 128 byte, zero bytes up to 56 mod 64,
then the bit length as eight big-endian bytes. -/
def sha1Pad (msg : List Nat) : List Nat :=
  let len := msg.length
  let z := (120 - ((len + 1) % 64)) % 64
  msg ++ [128] ++ List.replicate z 0 ++
    (List.range 8).map (fun i => ((len * 8) >>> ((7 - i) * 8)) % 256)

/-- Group four big-endian bytes into one 32-bit word. -/
def bytesToWords : List Nat → List Nat
  | a :: b :: c :: d :: rest => (a * 16777216 + b * 65536 + c * 256 + d) :: bytesToWords rest
  | _ => []

/-- Split a byte list into the given number of 64-byte blocks. -/
def chunksGo : Nat → List Nat → List (List Nat)
  | 0, _ => []
  | n + 1, l => l.take 64 :: chunksGo n (l.drop 64)

/-- Split a padded byte list into its 64-byte blocks. -/
def chunks64 (l : List Nat) : List (List Nat) :=
  chunksGo (l.length / 64) l

/-- Extend the 16 schedule words to 80.  The accumulator keeps the words
most recent first, so the words 3, 8, 14 and 16 places back are at
positions 2, 7, 13 and 15. -/
def sha1Extend : Nat → List Nat → List Nat
  | 0, ws => ws
  | n + 1, ws =>
    let w := rotl32 ((ws.getD 2 0) ^^^ (ws.getD 7 0) ^^^ (ws.getD 13 0) ^^^ (ws.getD 15 0)) 1
    sha1Extend n (w :: ws)

/-- One SHA-1 compression round at index i. -/
def sha1Round (i : Nat) (st : Nat × Nat × Nat × Nat × Nat) (w : Nat) :
    Nat × Nat × Nat × Nat × Nat :=
  let (a, b, c, d, e) := st
  let f :=
    if i < 20 then (b &&& c) ||| ((b ^^^ 4294967295) &&& d)
    else if i < 40 then b ^^^ c ^^^ d
    else if i < 60 then (b &&& c) ||| (b &&& d) ||| (c &&& d)
    else b ^^^ c ^^^ d
  let k :=
    if i < 20 then 1518500249
    else if i < 40 then 1859775393
    else if i < 60 then 2400959708
    else 3395469782
  let t := (rotl32 a 5 + f + e + k + w) % 4294967296
  (t, a, rotl32 b 30, c, d)

/-- Process one 64-byte block, updating the five hash words. -/
def sha1Block (h : Nat × Nat × Nat × Nat × Nat) (block : List Nat) :
    Nat × Nat × Nat × Nat × Nat :=
  let ws := (sha1Extend 64 (bytesToWords block).reverse).reverse
  let (a, b, c, d, e) := (ws.foldl (fun p w => (sha1Round p.2 p.1 w, p.2 + 1)) (h, 0)).1
  let (h0, h1, h2, h3, h4) := h
  ((h0 + a) % 4294967296, (h1 + b) % 4294967296, (h2 + c) % 4294967296,
   (h3 + d) % 4294967296, (h4 + e) % 4294967296)

/-- SHA-1 of a byte list, as the five 32-bit hash words. -/
def sha1Words (msg : List Nat) : Nat × Nat × Nat × Nat × Nat :=
  (chunks64 (sha1Pad msg)).foldl sha1Block
    (1732584193, 4023233417, 2562383102, 271733878, 3285377520)

/-- Hexadecimal digit character. -/
def hexChar (n : Nat) : Char :=
  "0123456789abcdef".data.getD n '0'

/-- Eight lowercase hex digits of a 32-bit word, big-endian. -/
def natToHex8 (n : Nat) : String :=
  String.mk ((List.range 8).map (fun i => hexChar ((n >>> ((7 - i) * 4)) % 16)))

/-- Lowercase hex digest of SHA-1, as hashlib.sha1(...).hexdigest(). -/
def sha1hex (msg : List Nat) : String :=
  let (a, b, c, d, e) := sha1Words msg
  natToHex8 a ++ natToHex8 b ++ natToHex8 c ++ natToHex8 d ++ natToHex8 e

/-- TheSimpleClient.buildResponse (thesimple.py line 123): the digest
challenge response hash, translated line by line from the source. -/
def buildResponse (username password realm nonce : String) : String :=
  let pwhash := sha1hex (utf8Encode password)
  let step2 := sha1hex (utf8Encode (username ++ ":" ++ realm ++ ":" ++ pwhash))
  sha1hex (utf8Encode (step2 ++ ":" ++ nonce))

/-- The challenge response as the specification words it: h1 is the hex
SHA-1 of the password, h2 the hex SHA-1 of username colon realm colon h1,
and the result the hex SHA-1 of h2 colon nonce, all strings UTF-8 encoded. -/
def specChallengeResponse (username password realm nonce : String) : String :=
  let h1hex := sha1hex (utf8Encode password)
  let h2hex := sha1hex (utf8Encode (username ++ ":" ++ realm ++ ":" ++ h1hex))
  sha1hex (utf8Encode (h2hex ++ ":" ++ nonce))

/-! ## Errors, HTTP transport and client state -/

/-- The exception hierarchy of thesimple.py: TheSimpleError with subclasses
APIError and AuthError.  pyError stands for Python builtin exceptions
(KeyError from a missing dict key, ValueError from float conversion). -/
inductive SimpleError where
  | theSimpleError (msg : String)
  | apiError (msg : String)
  | authError (msg : String)
  | pyError (msg : String)
deriving Repr, DecidableEq

/-- An HTTP response as seen by the client: status code, raw text and the
JSON-decoded body. -/
structure HttpResponse where
  status : Nat
  text : String
  body : Json
deriving Repr

/-- A network request actually issued by the client, recorded so that
claims about the number and content of network calls can be stated. -/
structure HttpRequestRec where
  method : String
  url : String
  jsonBody : Option Json
  headers : List (String × String)
deriving Repr

/-- The reusable requests.Session handle; it carries the headers installed
on creation. -/
structure Session where
  headers : List (String × String)
deriving Repr, DecidableEq

/-- Mutable state of TheSimpleClient (constructor at thesimple.py line 50).
The authinfo dict is flattened into four fields; the field for the opaque
entry is named authinfoOpaq. -/
structure TheSimpleClient where
  base_url : String
  token : String
  refreshToken : String
  http_sess : Option Session
  username : String
  userid : String
  location_id : Option String
  authinfoNonce : String
  authinfoResponse : String
  authinfoOpaq : String
  authinfoEncryptedpass : String
deriving Repr

/-- The session created by the httpSess property: a fresh requests.Session
with the X-Requested-With header installed (thesimple.py lines 78 to 80). -/
def freshSession : Session :=
  ⟨[("X-Requested-With", "XMLHttpRequest")]⟩

/-- The httpSess property (thesimple.py line 75): create the session handle
lazily if it is absent. -/
def ensureHttpSess (c : TheSimpleClient) : TheSimpleClient :=
  match c.http_sess with
  | none => { c with http_sess := some freshSession }
  | some _ => c

/-- TheSimpleClient.clearToken (thesimple.py line 142): clear both tokens
and drop the HTTP session handle. -/
def clearToken (c : TheSimpleClient) : TheSimpleClient :=
  { c with token := "", refreshToken := "", http_sess := none }

/-- HTTP status classification constants (thesimple.py lines 26 to 29). -/
def HTTP_SUCCESS_START : Nat := 200

/-- Upper bound of the success range. -/
def HTTP_SUCCESS_END : Nat := 299

/-- Lower bound of the forbidden range: exactly 401. -/
def HTTP_FORBIDDEN_START : Nat := 401

/-- Upper bound of the forbidden range: exactly 401. -/
def HTTP_FORBIDDEN_END : Nat := 401

/-- Result of a transport-level call: the client state after the call, the
network requests issued, and either the response or the raised error. -/
structure HttpResult where
  client : TheSimpleClient
  requests : List HttpRequestRec
  result : Except SimpleError HttpResponse
deriving Repr

/-- TheSimpleClient.http_request (thesimple.py line 269).  The response the
network would return is passed as the resp argument; the returned record
also lists the requests actually sent, so a branch that raises before the
network sends nothing. -/
def http_request (c : TheSimpleClient) (method req_url : String)
    (json_req_body : Option Json) (authenticated : Bool) (resp : HttpResponse) :
    HttpResult :=
  if authenticated && c.token.length == 0 then
    ⟨c, [], .error (.authError "No token, authentication required")⟩
  else
    let url := c.base_url ++ req_url
    let reqheaders := if authenticated then [("Authorization", "Bearer " ++ c.token)] else []
    if method == "GET" || method == "PATCH" || method == "PUT" || method == "DELETE" then
      let c1 := ensureHttpSess c
      let req : HttpRequestRec := ⟨method, url, json_req_body, reqheaders⟩
      if HTTP_SUCCESS_START ≤ resp.status && resp.status ≤ HTTP_SUCCESS_END then
        ⟨c1, [req], .ok resp⟩
      else if HTTP_FORBIDDEN_START ≤ resp.status && resp.status ≤ HTTP_FORBIDDEN_END then
        ⟨clearToken c1, [req],
          .error (.apiError ("HTTP response forbidden (code: " ++ toString resp.status ++
            ") (response: " ++ resp.text ++ ")"))⟩
      else
        ⟨c1, [req],
          .error (.apiError ("Invalid HTTP response (code: " ++ toString resp.status ++
            ") (response: " ++ resp.text ++ ")"))⟩
    else
      ⟨c, [], .error (.apiError ("Unsupported HTTP method: " ++ method))⟩

/-- Result of getToken: client state, requests issued, optional raised error. -/
structure TokenResult where
  client : TheSimpleClient
  requests : List HttpRequestRec
  err : Option SimpleError
deriving Repr

/-- The Authorization header value built by getToken (thesimple.py line 235);
the realm is hardcoded to Consumer. -/
def tokenAuthHeader (c : TheSimpleClient) : String :=
  "DigestE username=\"" ++ c.username ++ "\", realm=\"Consumer\", nonce=\"" ++
    c.authinfoNonce ++ "\", response=\"" ++ c.authinfoResponse ++ "\", opaque=\"" ++
    c.authinfoOpaq ++ "\""

/-- TheSimpleClient.getToken (thesimple.py line 229): clear the token state,
then POST to the authenticate path through the lazily recreated session;
on 2xx store the tokens from the body, on 401 raise AuthError, otherwise
raise APIError.  The three token assignments are sequential, as in the
source. -/
def getToken (c : TheSimpleClient) (resp : HttpResponse) : TokenResult :=
  let c0 := clearToken c
  let url := c0.base_url ++ "authenticate"
  let c1 := ensureHttpSess c0
  let req : HttpRequestRec :=
    ⟨"POST", url,
      some (Json.obj [("username", .str c0.username),
                      ("password", .str c0.authinfoEncryptedpass)]),
      [("Authorization", tokenAuthHeader c0)]⟩
  if HTTP_SUCCESS_START ≤ resp.status && resp.status ≤ HTTP_SUCCESS_END then
    match resp.body.get? "access_token" with
    | none => ⟨c1, [req], some (.pyError "KeyError: access_token")⟩
    | some tok =>
      let c2 := match tok with
        | .str s => { c1 with token := s }
        | _ => c1
      match resp.body.get? "user_id" with
      | none => ⟨c2, [req], some (.pyError "KeyError: user_id")⟩
      | some uid =>
        let c3 := match uid with
          | .str s => { c2 with userid := s }
          | _ => c2
        match resp.body.get? "refresh_token" with
        | none => ⟨c3, [req], some (.pyError "KeyError: refresh_token")⟩
        | some rtok =>
          let c4 := match rtok with
            | .str s => { c3 with refreshToken := s }
            | _ => c3
          ⟨c4, [req], none⟩
  else if HTTP_FORBIDDEN_START ≤ resp.status && resp.status ≤ HTTP_FORBIDDEN_END then
    ⟨c1, [req],
      some (.authError ("Authentication Error (code: " ++ toString resp.status ++
        ") (response: " ++ resp.text ++ ")"))⟩
  else
    ⟨c1, [req],
      some (.apiError ("Invalid HTTP response (code: " ++ toString resp.status ++
        ") (response: " ++ resp.text ++ ")"))⟩

/-! ## Thermostat state model -/

/-- Value of the homeassistant constant HVACMode.COOL (a str enum). -/
def HVACMode_COOL : String := "cool"

/-- Value of the homeassistant constant HVACMode.HEAT. -/
def HVACMode_HEAT : String := "heat"

/-- Value of the homeassistant constant HVACMode.AUTO. -/
def HVACMode_AUTO : String := "auto"

/-- Value of the homeassistant constant HVACMode.OFF. -/
def HVACMode_OFF : String := "off"

/-- Value of the homeassistant constant PRESET_AWAY. -/
def PRESET_AWAY : String := "away"

/-- Value of the homeassistant constant PRESET_NONE. -/
def PRESET_NONE : String := "none"

/-- Value of the homeassistant constant FAN_ON. -/
def FAN_ON : String := "on"

/-- Value of the homeassistant constant FAN_AUTO. -/
def FAN_AUTO : String := "auto"

/-- Default maximum temperature (thesimple.py line 31). -/
def MAX_TEMP_DEFAULT : Rat := 89

/-- Default minimum temperature (thesimple.py line 32). -/
def MIN_TEMP_DEFAULT : Rat := 50

/-- Mutable state of TheSimpleThermostat (constructor at thesimple.py
line 332).  Dynamically typed fields that receive raw JSON values hold
Option Json (the Python initial None is none); preset_mode only ever
receives the preset constants and is Option String. -/
structure TheSimpleThermostat where
  thermostat_id : String
  fan_mode : Option Json
  fan_state : Option Json
  hvac_mode : Option Json
  hvac_state : Option Json
  hold_mode : Option Json
  cool_setpoint : Option Json
  heat_setpoint : Option Json
  setpoint_reason : Option Json
  current_temp : Option Rat
  last_update : Option Rat
  connected : Option Json
  name : Option Json
  max_temp : Rat
  min_temp : Rat
  schedule_mode : Option Json
  supported_modes : Json
  away_details : Option Json
  preset_mode : Option String
  location_id : Option String
  away_cool_setpoint : Rat
  away_heat_setpoint : Rat
deriving Repr

/-- The hvacMode read-only property (thesimple.py line 407): returns the
cached field. -/
def TheSimpleThermostat.hvacMode (t : TheSimpleThermostat) : Option Json :=
  t.hvac_mode

/-- The cool_setpoint read-only property (thesimple.py line 377). -/
def TheSimpleThermostat.coolSetpointProp (t : TheSimpleThermostat) : Option Json :=
  t.cool_setpoint

/-- The heat_setpoint read-only property (thesimple.py line 402). -/
def TheSimpleThermostat.heatSetpointProp (t : TheSimpleThermostat) : Option Json :=
  t.heat_setpoint

/-- The fan_state property as written in the source (thesimple.py lines 397
to 400 and the nvenergy copy at lines 287 to 289): its body returns
self.fan_state, that is, it re-invokes the property itself rather than
reading the cached field.  The recursion is embedded with explicit fuel:
each step performs one property invocation, and exhausting any finite
fuel (Python: exceeding the interpreter recursion limit) yields no value. -/
def fanStateProp : Nat → TheSimpleThermostat → Option (Option Json)
  | 0, _ => none
  | fuel + 1, t => fanStateProp fuel t

/-- Embeds the Python equality test between a cached dynamically typed
value and a str enum constant: true exactly when the value is that JSON
string.  None and non-string values compare unequal. -/
def jsonIsStr (v : Option Json) (s : String) : Bool :=
  match v with
  | some (.str t) => t == s
  | _ => false

/-- Result of a thermostat operation: client and thermostat state after the
call, the requests issued, the warnings logged, and an optional raised
error.  The thermostat state is returned even when an error is raised,
because the Python object outlives the exception. -/
structure ThermoResult where
  client : TheSimpleClient
  thermo : TheSimpleThermostat
  requests : List HttpRequestRec
  warnings : List String
  err : Option SimpleError
deriving Repr

/-- Key of the nested state object consumed by refresh (thesimple.py
line 635). -/
def tinfoKey : String := "best_known_current_state_thermostat_data"

/-- Lookup of the top-level connected key. -/
def connectedOf (b : Json) : Option Json := b.get? "connected"

/-- Lookup of the top-level setpoint_reason key. -/
def setpointReasonOf (b : Json) : Option Json := b.get? "setpoint_reason"

/-- Lookup of a key inside the nested best-known-state object. -/
def tinfoField (b : Json) (k : String) : Option Json :=
  (b.get? tinfoKey).bind (fun o => o.get? k)

/-- The rounded current temperature consumed by refresh: the nested
temperature field passed through float and round. -/
def tempOf (b : Json) : Option Rat :=
  ((tinfoField b "temperature").bind Json.toFloat?).map round1

/-- Lookup of the top-level away_details object. -/
def awayDetailsOf (b : Json) : Option Json := b.get? "away_details"

/-- TheSimpleThermostat.refresh (thesimple.py line 622): authenticated GET
of the state path, then one field assignment per source line, in source
order; a missing key raises at that line, leaving the fields assigned by
the earlier lines already overwritten.  The wall-clock time.time() value
is passed as the now argument. -/
def refresh (c : TheSimpleClient) (t : TheSimpleThermostat) (resp : HttpResponse)
    (now : Rat) : ThermoResult :=
  let url := "thermostat/" ++ t.thermostat_id ++ "/state"
  let h := http_request c "GET" url none true resp
  match h.result with
  | .error e => ⟨h.client, t, h.requests, [], some e⟩
  | .ok r =>
    let b := r.body
    match connectedOf b with
    | none => ⟨h.client, t, h.requests, [], some (.pyError "KeyError: connected")⟩
    | some vconn =>
    let t := { t with connected := some vconn }
    match setpointReasonOf b with
    | none => ⟨h.client, t, h.requests, [], some (.pyError "KeyError: setpoint_reason")⟩
    | some vreason =>
    let t := { t with setpoint_reason := some vreason }
    match tempOf b with
    | none => ⟨h.client, t, h.requests, [], some (.pyError "temperature")⟩
    | some vtemp =>
    let t := { t with current_temp := some vtemp }
    match tinfoField b "hold_mode" with
    | none => ⟨h.client, t, h.requests, [], some (.pyError "KeyError: hold_mode")⟩
    | some vhold =>
    let t := { t with hold_mode := some vhold }
    match tinfoField b "fan_mode" with
    | none => ⟨h.client, t, h.requests, [], some (.pyError "KeyError: fan_mode")⟩
    | some vfanm =>
    let t := { t with fan_mode := some vfanm }
    match tinfoField b "fan_state" with
    | none => ⟨h.client, t, h.requests, [], some (.pyError "KeyError: fan_state")⟩
    | some vfans =>
    let t := { t with fan_state := some vfans }
    match tinfoField b "hvac_mode" with
    | none => ⟨h.client, t, h.requests, [], some (.pyError "KeyError: hvac_mode")⟩
    | some vhm =>
    let t := { t with hvac_mode := some vhm }
    match tinfoField b "hvac_state" with
    | none => ⟨h.client, t, h.requests, [], some (.pyError "KeyError: hvac_state")⟩
    | some vhs =>
    let t := { t with hvac_state := some vhs }
    match tinfoField b "cool_setpoint" with
    | none => ⟨h.client, t, h.requests, [], some (.pyError "KeyError: cool_setpoint")⟩
    | some vcs =>
    let t := { t with cool_setpoint := some vcs }
    match tinfoField b "heat_setpoint" with
    | none => ⟨h.client, t, h.requests, [], some (.pyError "KeyError: heat_setpoint")⟩
    | some vhsatz =>
    let t := { t with heat_setpoint := some vhsatz }
    let t := { t with last_update := some now }
    match awayDetailsOf b with
    | none => ⟨h.client, t, h.requests, [], some (.pyError "KeyError: away_details")⟩
    | some ad =>
      if (ad.get? "end_ts").isSome then
        ⟨h.client,
          { t with away_details := ad.get? "end_ts", preset_mode := some PRESET_AWAY },
          h.requests, [], none⟩
      else
        ⟨h.client, { t with away_details := none, preset_mode := some PRESET_NONE },
          h.requests, [], none⟩

/-- TheSimpleThermostat.set_temp (thesimple.py line 547).  Out-of-range
temperatures return silently before anything else; in Cool or Heat mode
the cached setpoint is assigned while the request body is built (lines 565
to 569), the PATCH is issued (line 577), and on success the same setpoint
is assigned again (lines 580 to 583); Off mode returns silently; any other
mode raises.  The source shares the PATCH and post-success lines between
the Cool and Heat branches; here each branch carries its own copy. -/
def set_temp (c : TheSimpleClient) (t : TheSimpleThermostat) (temp : Rat)
    (resp : HttpResponse) : ThermoResult :=
  if temp < t.min_temp || temp > t.max_temp then
    ⟨c, t, [], [], none⟩
  else
    let url := "thermostat/" ++ t.thermostat_id ++ "/state"
    if jsonIsStr t.hvacMode HVACMode_COOL then
      let json_req := Json.obj [("cool_setpoint", .int (pyInt temp))]
      let t1 := { t with cool_setpoint := some (.int (pyInt temp)) }
      let h := http_request c "PATCH" url (some json_req) true resp
      match h.result with
      | .error e => ⟨h.client, t1, h.requests, [], some e⟩
      | .ok _ =>
        let t2 :=
          if jsonIsStr t1.hvacMode HVACMode_COOL then
            { t1 with cool_setpoint := some (.int (pyInt temp)) }
          else if jsonIsStr t1.hvacMode HVACMode_HEAT then
            { t1 with heat_setpoint := some (.int (pyInt temp)) }
          else t1
        ⟨h.client, t2, h.requests, [], none⟩
    else if jsonIsStr t.hvacMode HVACMode_HEAT then
      let json_req := Json.obj [("heat_setpoint", .int (pyInt temp))]
      let t1 := { t with heat_setpoint := some (.int (pyInt temp)) }
      let h := http_request c "PATCH" url (some json_req) true resp
      match h.result with
      | .error e => ⟨h.client, t1, h.requests, [], some e⟩
      | .ok _ =>
        let t2 :=
          if jsonIsStr t1.hvacMode HVACMode_COOL then
            { t1 with cool_setpoint := some (.int (pyInt temp)) }
          else if jsonIsStr t1.hvacMode HVACMode_HEAT then
            { t1 with heat_setpoint := some (.int (pyInt temp)) }
          else t1
        ⟨h.client, t2, h.requests, [], none⟩
    else if jsonIsStr t.hvacMode HVACMode_OFF then
      ⟨c, t, [], [], none⟩
    else
      ⟨c, t, [], [],
        some (.theSimpleError "set_temp: Unable to determine current HVAC Mode")⟩

/-- TheSimpleThermostat.set_mode (thesimple.py line 520, the variant that
accepts auto): map the caller mode to the wire vocabulary, raise on an
unknown value, PATCH the hvac_mode field, and assign no cached field at
all, neither before nor after the request. -/
def set_mode (c : TheSimpleClient) (t : TheSimpleThermostat) (mode : String)
    (resp : HttpResponse) : ThermoResult :=
  let wireMode? : Option String :=
    if mode == HVACMode_COOL then some "cool"
    else if mode == HVACMode_HEAT then some "heat"
    else if mode == HVACMode_AUTO then some "auto"
    else if mode == HVACMode_OFF then some "off"
    else none
  match wireMode? with
  | none => ⟨c, t, [], [], some (.theSimpleError ("Invalid HVAC mode: " ++ mode))⟩
  | some m =>
    let url := "thermostat/" ++ t.thermostat_id ++ "/state"
    let h := http_request c "PATCH" url (some (Json.obj [("hvac_mode", .str m)])) true resp
    match h.result with
    | .error e => ⟨h.client, t, h.requests, [], some e⟩
    | .ok _ => ⟨h.client, t, h.requests, [], none⟩

/-- TheSimpleThermostat.get_away_settings (thesimple.py line 484):
authenticated GET of the away settings, then two sequential float
assignments.  A missing location id renders as the Python None string in
the request path. -/
def get_away_settings (c : TheSimpleClient) (t : TheSimpleThermostat)
    (resp : HttpResponse) : ThermoResult :=
  let locStr := match t.location_id with | some l => l | none => "None"
  let url := "location/" ++ locStr ++ "/away_settings"
  let h := http_request c "GET" url none true resp
  match h.result with
  | .error e => ⟨h.client, t, h.requests, [], some e⟩
  | .ok r =>
    match (r.body.get? "cool_setpoint").bind Json.toFloat? with
    | none => ⟨h.client, t, h.requests, [], some (.pyError "cool_setpoint")⟩
    | some cs =>
      let t := { t with away_cool_setpoint := cs }
      match (r.body.get? "heat_setpoint").bind Json.toFloat? with
      | none => ⟨h.client, t, h.requests, [], some (.pyError "heat_setpoint")⟩
      | some hs =>
        ⟨h.client, { t with away_heat_setpoint := hs }, h.requests, [], none⟩

/-- TheSimpleThermostat.set_preset_mode (thesimple.py line 585): reject
values other than the away and none presets; if the cached HVAC mode is
the off string, log a warning, force the cached preset to none and return
without any network call; otherwise fetch the away settings and PUT the
away payload or DELETE the away sub-resource, updating the cached preset
on success.  The away-settings response and the write response are the
two response arguments. -/
def set_preset_mode (c : TheSimpleClient) (t : TheSimpleThermostat) (preset : String)
    (awayResp writeResp : HttpResponse) : ThermoResult :=
  if !(preset == PRESET_AWAY || preset == PRESET_NONE) then
    ⟨c, t, [], [], some (.theSimpleError ("Invalid HVAC mode: " ++ preset))⟩
  else if jsonIsStr t.hvac_mode "off" then
    ⟨c, { t with preset_mode := some PRESET_NONE }, [],
      ["Cannot set preset mode to " ++ preset ++ " because thermostat is off"], none⟩
  else
    let g := get_away_settings c t awayResp
    match g.err with
    | some e => ⟨g.client, g.thermo, g.requests, [], some e⟩
    | none =>
      let url := "thermostat/" ++ t.thermostat_id ++ "/away"
      if preset == PRESET_AWAY then
        let json_req := Json.obj
          [("cool_setpoint", .num g.thermo.away_cool_setpoint),
           ("heat_setpoint", .num g.thermo.away_heat_setpoint),
           ("end_ts", .str "2050-12-31T00:00:00+00:00")]
        let h := http_request g.client "PUT" url (some json_req) true writeResp
        match h.result with
        | .error e => ⟨h.client, g.thermo, g.requests ++ h.requests, [], some e⟩
        | .ok _ =>
          ⟨h.client, { g.thermo with preset_mode := some PRESET_AWAY },
            g.requests ++ h.requests, [], none⟩
      else
        let h := http_request g.client "DELETE" url none true writeResp
        match h.result with
        | .error e => ⟨h.client, g.thermo, g.requests ++ h.requests, [], some e⟩
        | .ok _ =>
          ⟨h.client, { g.thermo with preset_mode := some PRESET_NONE },
            g.requests ++ h.requests, [], none⟩

-- Sanity check of the SHA-1 model against the standard test vector.
set_option maxRecDepth 8000 in
example : sha1hex (utf8Encode "abc") = "a9993e364706816aba3e25717850c26c9cd0d89d" := by
  rfl

/-! ## Concrete fixtures for witnesses and counterexamples -/

/-- A client holding a token, as after a successful authentication. -/
def c0 : TheSimpleClient :=
  ⟨"https://nve.ecofactor.com/ws/v1.0/", "tok123", "ref456", none,
   "alice", "u1", some "locA", "nonce1", "resp1", "op1", "enc1"⟩

/-- A client holding no token. -/
def cNoTok : TheSimpleClient := { c0 with token := "" }

/-- A thermostat with fully populated cached state, in Cool mode. -/
def t0 : TheSimpleThermostat :=
  ⟨"t1", some (.str "auto"), some (.str "off"), some (.str "cool"),
   some (.str "off"), some (.str "scheduled"), some (.int 70), some (.int 65),
   some (.str "setpoint"), some 71, some 0, some (.bool false),
   some (.str "Home"), 89, 50, some (.str "s"), .arr [], none,
   some "none", some "locA", 85, 62⟩

/-- The thermostat t0 switched to Off mode. -/
def tOff : TheSimpleThermostat := { t0 with hvac_mode := some (.str "off") }

/-- A 401 response. -/
def resp401 : HttpResponse := ⟨401, "denied", .null⟩

/-- A 500 response. -/
def resp500 : HttpResponse := ⟨500, "server error", .null⟩

/-- A bare 200 response for write operations. -/
def respOk : HttpResponse := ⟨200, "ok", .obj []⟩

/-- A well-formed state response carrying every key refresh consumes. -/
def respFull : HttpResponse :=
  ⟨200, "ok",
   .obj [("connected", .bool true), ("setpoint_reason", .str "hold"),
         (tinfoKey, .obj [("temperature", .int 72), ("hold_mode", .str "on"),
                          ("fan_mode", .str "auto"), ("fan_state", .str "off"),
                          ("hvac_mode", .str "cool"), ("hvac_state", .str "cool"),
                          ("cool_setpoint", .int 74), ("heat_setpoint", .int 66)]),
         ("away_details", .obj [])]⟩

/-- A malformed state response: the connected key is present but
setpoint_reason is missing. -/
def respMalformed : HttpResponse :=
  ⟨200, "ok", .obj [("connected", .bool true)]⟩

/-! ## Claims -/

/-- C4: the fan_state property of the source, as written, never returns the
cached fan state: its body re-invokes the property itself, so evaluation
recurses until the interpreter recursion limit, for every thermostat and
every amount of fuel.  This contradicts its own doc string, which promises
the current fan state, so reading the property is a code bug, not the
cached-value read the specification describes. -/
theorem C4_fan_state_never_returns :
    ∀ (fuel : Nat) (t : TheSimpleThermostat), fanStateProp fuel t = none := by
  intro fuel t
  induction fuel with
  | zero => rfl
  | succ n ih => exact ih

/-- C5: an authenticated http_request while the stored token is empty
raises AuthError immediately: no network request is issued and the client
state is returned unchanged. -/
theorem C5_no_token_fails_before_network (c : TheSimpleClient)
    (method path : String) (body : Option Json) (resp : HttpResponse)
    (h : c.token.length = 0) :
    http_request c method path body true resp =
      ⟨c, [], .error (.authError "No token, authentication required")⟩ := by
  unfold http_request
  simp [h]

/-- Witness for C5 at a concrete tokenless client. -/
theorem C5_witness :
    cNoTok.token.length = 0 ∧
    http_request cNoTok "GET" "user" none true resp401 =
      ⟨cNoTok, [], .error (.authError "No token, authentication required")⟩ :=
  ⟨rfl, C5_no_token_fails_before_network cNoTok "GET" "user" none resp401 rfl⟩

/-- C6: buildResponse computes exactly the digest scheme the specification
states: the hex SHA-1 of the password, hashed with username and realm,
hashed with the nonce, all UTF-8 encoded and hex encoded at each stage. -/
theorem C6_buildResponse_matches_spec (username password realm nonce : String) :
    buildResponse username password realm nonce =
      specChallengeResponse username password realm nonce := rfl

/-- C7: set_temp with a temperature strictly below the minimum or strictly
above the maximum returns silently: no request is issued, no warning is
logged, no error is raised and both client and thermostat are unchanged. -/
theorem C7_set_temp_out_of_range_noop (c : TheSimpleClient)
    (t : TheSimpleThermostat) (temp : Rat) (resp : HttpResponse)
    (h : temp < t.min_temp ∨ t.max_temp < temp) :
    set_temp c t temp resp = ⟨c, t, [], [], none⟩ := by
  unfold set_temp
  rcases h with h | h <;> simp [h]

/-- Witness for C7 at a concrete out-of-range temperature. -/
theorem C7_witness :
    (49 : Rat) < t0.min_temp ∧
    set_temp c0 t0 49 resp500 = ⟨c0, t0, [], [], none⟩ :=
  ⟨by decide, C7_set_temp_out_of_range_noop c0 t0 49 resp500 (Or.inl (by decide))⟩

/-- C8: set_preset_mode with the away or the none preset, on a thermostat
whose cached HVAC mode is the off string, issues no network request at
all, forces the cached preset to none, logs exactly the off warning and
returns without raising; the client is untouched. -/
theorem C8_set_preset_off_noop (c : TheSimpleClient) (t : TheSimpleThermostat)
    (preset : String) (awayResp writeResp : HttpResponse)
    (hp : preset = PRESET_AWAY ∨ preset = PRESET_NONE)
    (hm : t.hvac_mode = some (.str "off")) :
    set_preset_mode c t preset awayResp writeResp =
      ⟨c, { t with preset_mode := some PRESET_NONE }, [],
        ["Cannot set preset mode to " ++ preset ++ " because thermostat is off"],
        none⟩ := by
  unfold set_preset_mode
  rcases hp with hp | hp <;> subst hp <;>
    simp [jsonIsStr, hm, PRESET_AWAY, PRESET_NONE]

/-- Witness for C8 on a concrete Off-mode thermostat. -/
theorem C8_witness :
    ("away" = PRESET_AWAY ∨ "away" = PRESET_NONE) ∧
    tOff.hvac_mode = some (Json.str "off") ∧
    set_preset_mode c0 tOff "away" resp500 resp500 =
      ⟨c0, { tOff with preset_mode := some PRESET_NONE }, [],
        ["Cannot set preset mode to away because thermostat is off"], none⟩ :=
  ⟨Or.inl rfl, rfl,
    C8_set_preset_off_noop c0 tOff "away" resp500 resp500 (Or.inl rfl) rfl⟩

/-- C9: a successful set_mode call on any accepted mode returns the
thermostat state completely unchanged: no cached field, in particular not
the cached HVAC mode, is optimistically updated. -/
theorem C9_set_mode_no_optimistic_update (c : TheSimpleClient)
    (t : TheSimpleThermostat) (mode : String) (resp : HttpResponse)
    (hv : mode = HVACMode_COOL ∨ mode = HVACMode_HEAT ∨
      mode = HVACMode_AUTO ∨ mode = HVACMode_OFF)
    (hs : (set_mode c t mode resp).err = none) :
    (set_mode c t mode resp).thermo = t := by
  unfold set_mode
  rcases hv with hv | hv | hv | hv <;> subst hv <;>
    simp [HVACMode_COOL, HVACMode_HEAT, HVACMode_AUTO, HVACMode_OFF] <;>
    split <;> rfl

/-- Witness for C9: a concrete successful cool-mode write leaves the
thermostat unchanged. -/
theorem C9_witness :
    ("cool" = HVACMode_COOL ∨ "cool" = HVACMode_HEAT ∨
      "cool" = HVACMode_AUTO ∨ "cool" = HVACMode_OFF) ∧
    (set_mode c0 t0 "cool" respOk).err = none ∧
    (set_mode c0 t0 "cool" respOk).thermo = t0 :=
  ⟨Or.inl rfl, rfl,
    C9_set_mode_no_optimistic_update c0 t0 "cool" respOk (Or.inl rfl) rfl⟩

/-- Clearing the token after lazily creating the session gives the same
client state as clearing it directly. -/
theorem clearToken_ensureHttpSess (c : TheSimpleClient) :
    clearToken (ensureHttpSess c) = clearToken c := by
  rcases c with ⟨b, tok, rtok, sess, u, uid, loc, n, r, o, e⟩
  cases sess <;> rfl

/-- C1 counterexample: at a concrete 401 response the error http_request
raises is an APIError, not the AuthError the claim states. -/
theorem C1_counterexample :
    ¬ ∃ m, (http_request c0 "GET" "user" none true resp401).result =
      Except.error (SimpleError.authError m) := by
  rintro ⟨m, hm⟩
  have h2 : (http_request c0 "GET" "user" none true resp401).result =
      Except.error (SimpleError.apiError
        "HTTP response forbidden (code: 401) (response: denied)") := rfl
  rw [h2] at hm
  simp at hm

/-- C1 (amended): on a 401 response http_request clears both tokens and
drops the session handle but raises APIError (the forbidden message)
carrying the raw status and body; every other non-2xx status raises
APIError with the invalid-response message and leaves the token state
alone. -/
theorem C1_non2xx_clears_and_raises_apiError (c : TheSimpleClient)
    (method path : String) (body : Option Json) (authenticated : Bool)
    (resp : HttpResponse)
    (hm : method = "GET" ∨ method = "PATCH" ∨ method = "PUT" ∨ method = "DELETE")
    (ht : authenticated = true → c.token.length ≠ 0) :
    (resp.status = 401 →
      http_request c method path body authenticated resp =
        ⟨clearToken c,
         [⟨method, c.base_url ++ path, body,
           if authenticated then [("Authorization", "Bearer " ++ c.token)] else []⟩],
         .error (.apiError ("HTTP response forbidden (code: " ++ toString resp.status ++
           ") (response: " ++ resp.text ++ ")"))⟩) ∧
    (¬(HTTP_SUCCESS_START ≤ resp.status ∧ resp.status ≤ HTTP_SUCCESS_END) →
      resp.status ≠ 401 →
      http_request c method path body authenticated resp =
        ⟨ensureHttpSess c,
         [⟨method, c.base_url ++ path, body,
           if authenticated then [("Authorization", "Bearer " ++ c.token)] else []⟩],
         .error (.apiError ("Invalid HTTP response (code: " ++ toString resp.status ++
           ") (response: " ++ resp.text ++ ")"))⟩) := by
  have hguard : (authenticated && c.token.length == 0) = false := by
    cases authenticated
    · rfl
    · simp [ht rfl]
  constructor
  · intro hst
    unfold http_request
    rcases hm with hm | hm | hm | hm <;> subst hm <;>
      simp [hguard, hst, HTTP_SUCCESS_START, HTTP_SUCCESS_END,
        HTTP_FORBIDDEN_START, HTTP_FORBIDDEN_END, clearToken_ensureHttpSess]
  · intro hno hne
    have hb1 : (HTTP_SUCCESS_START ≤ resp.status && resp.status ≤ HTTP_SUCCESS_END)
        = false := by
      by_cases h1 : HTTP_SUCCESS_START ≤ resp.status <;>
        by_cases h2 : resp.status ≤ HTTP_SUCCESS_END <;> simp_all
    have hb2 : (HTTP_FORBIDDEN_START ≤ resp.status && resp.status ≤ HTTP_FORBIDDEN_END)
        = false := by
      have h2 : ¬(HTTP_FORBIDDEN_START ≤ resp.status ∧
          resp.status ≤ HTTP_FORBIDDEN_END) := by
        rintro ⟨ha, hb⟩
        exact hne (Nat.le_antisymm hb ha)
      by_cases h1 : HTTP_FORBIDDEN_START ≤ resp.status <;>
        by_cases h3 : resp.status ≤ HTTP_FORBIDDEN_END <;> simp_all
    unfold http_request
    rcases hm with hm | hm | hm | hm <;> subst hm <;>
      simp [hguard, hb1, hb2]

/-- Witness for C1 at a concrete 401. -/
theorem C1_witness :
    ("GET" = "GET" ∨ "GET" = "PATCH" ∨ "GET" = "PUT" ∨ "GET" = "DELETE") ∧
    c0.token.length ≠ 0 ∧ resp401.status = 401 ∧
    http_request c0 "GET" "user" none true resp401 =
      ⟨clearToken c0,
       [⟨"GET", c0.base_url ++ "user", none,
         [("Authorization", "Bearer " ++ c0.token)]⟩],
       .error (.apiError ("HTTP response forbidden (code: " ++
         toString resp401.status ++ ") (response: " ++ resp401.text ++ ")"))⟩ := by
  refine ⟨Or.inl rfl, by decide, rfl, ?_⟩
  exact (C1_non2xx_clears_and_raises_apiError c0 "GET" "user" none true resp401
    (Or.inl rfl) (fun _ => by decide)).1 rfl

/-- C3: the code contradicts the claim (and its own in-line comment, which
promises the optimistic update only on success): set_temp assigns the
cached cool setpoint while building the request body, before the PATCH is
issued, so on a failing PATCH the cached setpoint has already changed.
At the concrete failing input, a Cool-mode thermostat with cached setpoint
70 and an in-range temperature 75 whose PATCH returns 500, the call raises
APIError yet the cached cool setpoint reads 75. -/
theorem C3_set_temp_failure_updates_setpoint :
    t0.cool_setpoint = some (.int 70) ∧
    (set_temp c0 t0 75 resp500).err =
      some (.apiError "Invalid HTTP response (code: 500) (response: server error)") ∧
    (set_temp c0 t0 75 resp500).thermo.cool_setpoint = some (.int 75) :=
  ⟨rfl, rfl, rfl⟩

/-- C10 counterexample: at a concrete failing token exchange (status 500)
getToken raises, yet the client still holds a reusable HTTP session
handle, because the POST lazily recreated the session the clear had just
dropped; the claim of no reusable session handle after a raise is false. -/
theorem C10_counterexample :
    (getToken c0 resp500).err ≠ none ∧
    (getToken c0 resp500).client.http_sess ≠ none := by
  constructor <;> simp [getToken, c0, resp500, clearToken, ensureHttpSess,
    HTTP_SUCCESS_START, HTTP_SUCCESS_END, HTTP_FORBIDDEN_START, HTTP_FORBIDDEN_END]

/-- C10 (amended): getToken clears the access token, the refresh token and
the HTTP session handle before issuing the token POST, whose header and
body are built from the cleared state (so no old token can leak into the
exchange); consequently whenever the exchange fails the client holds empty
access and refresh tokens and exactly the freshly created session handle,
with AuthError on 401 and APIError on any other non-2xx status. -/
theorem C10_getToken_clears_before_post (c : TheSimpleClient)
    (resp : HttpResponse)
    (h : ¬(HTTP_SUCCESS_START ≤ resp.status ∧ resp.status ≤ HTTP_SUCCESS_END)) :
    (getToken c resp).client.token = "" ∧
    (getToken c resp).client.refreshToken = "" ∧
    (getToken c resp).client.http_sess = some freshSession ∧
    (getToken c resp).requests =
      [⟨"POST", c.base_url ++ "authenticate",
        some (Json.obj [("username", .str c.username),
                        ("password", .str c.authinfoEncryptedpass)]),
        [("Authorization", tokenAuthHeader (clearToken c))]⟩] ∧
    (getToken c resp).err ≠ none ∧
    (resp.status = 401 →
      (getToken c resp).err = some (.authError ("Authentication Error (code: " ++
        toString resp.status ++ ") (response: " ++ resp.text ++ ")"))) ∧
    (resp.status ≠ 401 →
      (getToken c resp).err = some (.apiError ("Invalid HTTP response (code: " ++
        toString resp.status ++ ") (response: " ++ resp.text ++ ")"))) := by
  unfold getToken
  by_cases h4 : resp.status = 401
  · simp [h4, HTTP_SUCCESS_START, HTTP_SUCCESS_END, HTTP_FORBIDDEN_START,
      HTTP_FORBIDDEN_END, clearToken, ensureHttpSess]
  · have h2 : ¬(HTTP_FORBIDDEN_START ≤ resp.status ∧
        resp.status ≤ HTTP_FORBIDDEN_END) := by
      rintro ⟨ha, hb⟩
      exact h4 (Nat.le_antisymm hb ha)
    simp [h, h2, h4, clearToken, ensureHttpSess]

/-- Witness for C10 at the concrete failing exchange. -/
theorem C10_witness :
    ¬(HTTP_SUCCESS_START ≤ resp500.status ∧ resp500.status ≤ HTTP_SUCCESS_END) ∧
    (getToken c0 resp500).client.token = "" ∧
    (getToken c0 resp500).client.http_sess = some freshSession :=
  ⟨by decide,
   (C10_getToken_clears_before_post c0 resp500 (by decide)).1,
   (C10_getToken_clears_before_post c0 resp500 (by decide)).2.2.1⟩

/-- An ok outcome of http_request always carries the network response
unmodified. -/
theorem http_request_result_ok (c : TheSimpleClient) (method path : String)
    (body : Option Json) (auth : Bool) (resp : HttpResponse) (r : HttpResponse)
    (h : (http_request c method path body auth resp).result = .ok r) :
    r = resp := by
  unfold http_request at h
  repeat' split at h
  all_goals simp_all

/-- C2 counterexample: a malformed state response carrying the connected
key but missing setpoint_reason makes refresh raise, yet the cached
connected flag has already been overwritten from false to true, so the
prior state is neither fully replaced nor untouched. -/
theorem C2_counterexample :
    (refresh c0 t0 respMalformed 5).err =
      some (.pyError "KeyError: setpoint_reason") ∧
    t0.connected = some (Json.bool false) ∧
    (refresh c0 t0 respMalformed 5).thermo.connected = some (Json.bool true) :=
  ⟨rfl, rfl, rfl⟩

/-- C2 (amended): refresh overwrites the live-state fields one source line
at a time.  When the call succeeds every live-state field holds exactly
the value extracted from the response; when the call fails each field
holds either its freshly extracted value or its prior value (the fields up
to the failing line are already overwritten), so a malformed response can
leave a half-updated model rather than an untouched one. -/
theorem C2_refresh_line_by_line (c : TheSimpleClient) (t : TheSimpleThermostat)
    (resp : HttpResponse) (now : Rat) :
    ((refresh c t resp now).err = none →
      (refresh c t resp now).thermo.connected = connectedOf resp.body ∧
      (refresh c t resp now).thermo.setpoint_reason = setpointReasonOf resp.body ∧
      (refresh c t resp now).thermo.current_temp = tempOf resp.body ∧
      (refresh c t resp now).thermo.hold_mode = tinfoField resp.body "hold_mode" ∧
      (refresh c t resp now).thermo.fan_mode = tinfoField resp.body "fan_mode" ∧
      (refresh c t resp now).thermo.fan_state = tinfoField resp.body "fan_state" ∧
      (refresh c t resp now).thermo.hvac_mode = tinfoField resp.body "hvac_mode" ∧
      (refresh c t resp now).thermo.hvac_state = tinfoField resp.body "hvac_state" ∧
      (refresh c t resp now).thermo.cool_setpoint = tinfoField resp.body "cool_setpoint" ∧
      (refresh c t resp now).thermo.heat_setpoint = tinfoField resp.body "heat_setpoint" ∧
      (refresh c t resp now).thermo.last_update = some now ∧
      (refresh c t resp now).thermo.away_details =
        (awayDetailsOf resp.body).bind (fun ad => ad.get? "end_ts") ∧
      (refresh c t resp now).thermo.preset_mode =
        some (if ((awayDetailsOf resp.body).bind (fun ad => ad.get? "end_ts")).isSome
          then PRESET_AWAY else PRESET_NONE)) ∧
    ((refresh c t resp now).err ≠ none →
      ((refresh c t resp now).thermo.connected = connectedOf resp.body ∨
        (refresh c t resp now).thermo.connected = t.connected) ∧
      ((refresh c t resp now).thermo.setpoint_reason = setpointReasonOf resp.body ∨
        (refresh c t resp now).thermo.setpoint_reason = t.setpoint_reason) ∧
      ((refresh c t resp now).thermo.current_temp = tempOf resp.body ∨
        (refresh c t resp now).thermo.current_temp = t.current_temp) ∧
      ((refresh c t resp now).thermo.hold_mode = tinfoField resp.body "hold_mode" ∨
        (refresh c t resp now).thermo.hold_mode = t.hold_mode) ∧
      ((refresh c t resp now).thermo.fan_mode = tinfoField resp.body "fan_mode" ∨
        (refresh c t resp now).thermo.fan_mode = t.fan_mode) ∧
      ((refresh c t resp now).thermo.fan_state = tinfoField resp.body "fan_state" ∨
        (refresh c t resp now).thermo.fan_state = t.fan_state) ∧
      ((refresh c t resp now).thermo.hvac_mode = tinfoField resp.body "hvac_mode" ∨
        (refresh c t resp now).thermo.hvac_mode = t.hvac_mode) ∧
      ((refresh c t resp now).thermo.hvac_state = tinfoField resp.body "hvac_state" ∨
        (refresh c t resp now).thermo.hvac_state = t.hvac_state) ∧
      ((refresh c t resp now).thermo.cool_setpoint = tinfoField resp.body "cool_setpoint" ∨
        (refresh c t resp now).thermo.cool_setpoint = t.cool_setpoint) ∧
      ((refresh c t resp now).thermo.heat_setpoint = tinfoField resp.body "heat_setpoint" ∨
        (refresh c t resp now).thermo.heat_setpoint = t.heat_setpoint) ∧
      ((refresh c t resp now).thermo.last_update = some now ∨
        (refresh c t resp now).thermo.last_update = t.last_update) ∧
      ((refresh c t resp now).thermo.away_details = t.away_details) ∧
      ((refresh c t resp now).thermo.preset_mode = t.preset_mode)) := by
  unfold refresh
  cases heq : (http_request c "GET" ("thermostat/" ++ t.thermostat_id ++ "/state")
      none true resp).result with
  | error e => simp [heq]
  | ok r =>
    obtain rfl : r = resp := http_request_result_ok _ _ _ _ _ _ _ heq
    simp only [heq]
    repeat' split
    all_goals simp_all

/-- Witness for C2 at a fully well-formed response: the call succeeds and
the fields read back the extracted values. -/
theorem C2_witness :
    (refresh c0 t0 respFull 5).err = none ∧
    (refresh c0 t0 respFull 5).thermo.connected = connectedOf respFull.body ∧
    (refresh c0 t0 respFull 5).thermo.cool_setpoint =
      tinfoField respFull.body "cool_setpoint" := by
  have h := (C2_refresh_line_by_line c0 t0 respFull 5).1 rfl
  exact ⟨rfl, h.1, h.2.2.2.2.2.2.2.2.1⟩

end TheSimple
